import Mathlib

/-!
Verification of the AeroWeather normalization and derivation engine
(custom_components/aeroweather: sensor.py, coordinator.py, notams.py).

Python values flowing through the extractors are JSON-shaped; we model them
with an inductive `JVal`. Finite Python floats are modelled as exact
rationals; the string-to-float conversion additionally models the special
values (inf/infinity/nan tokens, overflow of out-of-range literals to a
signed infinity, underscore digit separators) in `pyFloatOfString`, and the
extractors whose arithmetic stays rational consume its finite restriction.
A Python function that can raise an uncaught exception is modelled with an
`Option` result where `none` marks the exception (`PyRes`).
-/

set_option autoImplicit false

namespace AeroWeather

/-- JSON-shaped Python value: None, bool, number (int or float, as an exact
rational), string, list, or string-keyed dict (an association list; a Python
dict has unique keys, so duplicate keys never arise from real payloads, and
lookup takes the first binding). -/
inductive JVal where
  | jnull
  | jbool (b : Bool)
  | jnum (q : ℚ)
  | jstr (s : String)
  | jarr (xs : List JVal)
  | jobj (fields : List (String × JVal))

/-- A raw report record: a Python dict with string keys. -/
abbrev Rec := List (String × JVal)

/-- Result of a Python call that may raise: `none` is an uncaught exception. -/
abbrev PyRes (α : Type) := Option α

/-- First binding for a key in a dict, as Python dict lookup. -/
def rlookup {β : Type} : List (String × β) → String → Option β
  | [], _ => none
  | (k, v) :: rest, key => if k = key then some v else rlookup rest key

/-- Python's d.get(k): the stored value, or None when the key is absent. -/
def pyGet (d : Rec) (k : String) : JVal :=
  (rlookup d k).getD .jnull

/-- Python truthiness of a JSON-shaped value. -/
def truthy : JVal → Bool
  | .jnull => false
  | .jbool b => b
  | .jnum q => decide (q ≠ 0)
  | .jstr s => decide (s ≠ "")
  | .jarr xs => !xs.isEmpty
  | .jobj fields => !fields.isEmpty

/-- ASCII decimal digit test (the re module's \d over these reports). -/
def isDigit (c : Char) : Bool :=
  decide ('0' ≤ c) && decide (c ≤ '9')

/-- Whitespace recognized by Python's str.strip and the re module's \s. -/
def isSpace (c : Char) : Bool :=
  c = ' ' || c = '\t' || c = '\n' || c = '\r' || c = '\x0b' || c = '\x0c'

/-- Word character for the re module's \b boundaries. -/
def isWordChar (c : Char) : Bool :=
  isDigit c || (decide ('a' ≤ c) && decide (c ≤ 'z'))
    || (decide ('A' ≤ c) && decide (c ≤ 'Z')) || c = '_'

/-- Maximal prefix of decimal digits, with the remainder. -/
def takeDigits : List Char → List Char × List Char
  | [] => ([], [])
  | c :: rest =>
    if isDigit c then
      let (ds, r) := takeDigits rest
      (c :: ds, r)
    else ([], c :: rest)

/-- Maximal prefix of whitespace, with the remainder. -/
def takeSpaces : List Char → List Char × List Char
  | [] => ([], [])
  | c :: rest =>
    if isSpace c then
      let (ws, r) := takeSpaces rest
      (c :: ws, r)
    else ([], c :: rest)

/-- Numeric value of a digit string. -/
def digitsToNat : List Char → ℕ
  | [] => 0
  | c :: rest => (c.toNat - '0'.toNat) * 10 ^ rest.length + digitsToNat rest

/-- Both-ends whitespace strip, as Python's str.strip(). -/
def stripChars (l : List Char) : List Char :=
  ((l.dropWhile isSpace).reverse.dropWhile isSpace).reverse

/-- Python str.strip on a string. -/
def pyStrip (s : String) : String :=
  String.mk (stripChars s.data)

/-- Python str.upper (ASCII part; these reports are ASCII). -/
def pyUpper (s : String) : String :=
  String.mk (s.data.map Char.toUpper)

/-- Optional sign prefix: the sign and the remainder. -/
def parseSign : List Char → ℤ × List Char
  | '+' :: rest => (1, rest)
  | '-' :: rest => (-1, rest)
  | l => (1, l)

/-- Ten to an integer power, over ℚ. -/
def epow (e : ℤ) : ℚ :=
  if 0 ≤ e then (10 : ℚ) ^ e.toNat else ((10 : ℚ) ^ (-e).toNat)⁻¹

/-- Mantissa value of integer-part and fraction-part digit strings. -/
def mantissa (ip fp : List Char) : ℚ :=
  (digitsToNat (ip ++ fp) : ℚ) / (10 : ℚ) ^ fp.length

/-- Fuelled worker for `takeDigitsU`; the fuel is an upper bound on the
list length, so the zero-fuel case only meets the empty list. Structural
recursion on the fuel keeps concrete strings kernel-computable. -/
def takeDigitsUAux : ℕ → List Char → List Char × List Char
  | 0, l => ([], l)
  | _ + 1, [] => ([], [])
  | fuel + 1, c :: rest =>
    if isDigit c then
      match rest with
      | '_' :: d :: rest2 =>
        if isDigit d then
          let (ds, r) := takeDigitsUAux fuel (d :: rest2)
          (c :: ds, r)
        else ([c], '_' :: d :: rest2)
      | _ =>
        let (ds, r) := takeDigitsUAux fuel rest
        (c :: ds, r)
    else ([], c :: rest)

/-- Maximal run of digits allowing a single underscore strictly between
two digits, as CPython numeric literals accept ("1_0" is 10, while "1__0",
"1_" and "_1" leave an underscore behind and the whole parse fails). -/
def takeDigitsU (l : List Char) : List Char × List Char :=
  takeDigitsUAux l.length l

/-- Exponent digits after e/E: optional sign then at least one digit
(underscores between digits allowed), consuming the whole remainder. -/
def parseExpNum (l : List Char) : Option ℤ :=
  let (sgn, l1) := parseSign l
  let (ds, l2) := takeDigitsU l1
  if ds = [] then none
  else if l2 = [] then some (sgn * (digitsToNat ds : ℤ))
  else none

/-- Optional exponent part ending the literal: empty, or e/E then digits. -/
def parseExpPart : List Char → Option ℤ
  | [] => some 0
  | 'e' :: rest => parseExpNum rest
  | 'E' :: rest => parseExpNum rest
  | _ => none

/-- Shape of the payload of a Python float literal after the sign: the
special tokens inf/infinity/nan, or digits with optional point, fraction
and exponent. -/
inductive FloatKind where
  | inf
  | nan
  | num (ip fp : List Char) (e : ℤ)
deriving DecidableEq

/-- Token stage of Python float(str): strip, optional sign, then the
case-insensitive special words or a numeric literal with underscore
separators; everything here is characters and integers so a concrete
string evaluates by kernel reduction. -/
def pyFloatTok (l : List Char) : Option (Bool × FloatKind) :=
  let l0 := stripChars l
  let (neg, l1) :=
    match l0 with
    | '+' :: rest => (false, rest)
    | '-' :: rest => (true, rest)
    | rest => (false, rest)
  let low := l1.map Char.toLower
  if low = ['i', 'n', 'f'] ∨ low = ['i', 'n', 'f', 'i', 'n', 'i', 't', 'y'] then
    some (neg, .inf)
  else if low = ['n', 'a', 'n'] then some (neg, .nan)
  else
    let (ip, l2) := takeDigitsU l1
    match l2 with
    | '.' :: l3 =>
      let (fp, l4) := takeDigitsU l3
      if ip = [] && fp = [] then none
      else (parseExpPart l4).map (fun e => (neg, .num ip fp e))
    | rest =>
      if ip = [] then none
      else (parseExpPart rest).map (fun e => (neg, .num ip [] e))

/-- A Python float value: a finite value kept as an exact rational, a
signed infinity, or NaN. -/
inductive PyFloatVal where
  | finite (q : ℚ)
  | infinite (neg : Bool)
  | nan
deriving DecidableEq

/-- Smallest magnitude whose round-to-nearest-double overflows: the
midpoint between the largest finite double (2^1024 - 2^971) and 2^1024;
the tie goes to the even candidate 2^1024, hence to infinity (checked
against CPython: this exact integer parses to inf, one less to the
largest finite double). -/
def DBL_OVERFLOW : ℚ := 2 ^ 1024 - 2 ^ 970

/-- Python float(str): special tokens give infinities and NaN, numeric
literals beyond the double range overflow to a signed infinity, and other
finite values are kept exact (rounding a finite in-range value to its
nearest double is the one idealization retained). -/
def pyFloatOfString (s : String) : Option PyFloatVal :=
  match pyFloatTok s.data with
  | none => none
  | some (neg, .inf) => some (.infinite neg)
  | some (_, .nan) => some .nan
  | some (neg, .num ip fp e) =>
    let mag := mantissa ip fp * epow e
    if DBL_OVERFLOW ≤ mag then some (.infinite neg)
    else some (.finite (if neg then -mag else mag))

/-- Finite restriction of Python float(str), for the consumers whose
downstream arithmetic is modelled over exact rationals (every modelled
claim feeds them finite in-range numbers); strings denoting infinities or
NaN fall outside this rational view, and `pyFloatOfString` carries the
full semantics where a claim depends on the special values. -/
def parsePyFloat (s : String) : Option ℚ :=
  match pyFloatOfString s with
  | some (.finite q) => some q
  | _ => none

/-- Python int(·) truncation of a float toward zero. -/
def pyTrunc (q : ℚ) : ℤ :=
  if 0 ≤ q then ⌊q⌋ else ⌈q⌉

/-- Python round(·) to an integer: round half to even. -/
def roundHalfEven (q : ℚ) : ℤ :=
  let n := ⌊q⌋
  let r := q - (n : ℚ)
  if r < 1 / 2 then n
  else if 1 / 2 < r then n + 1
  else if n % 2 = 0 then n else n + 1

/-- Python round(·, 2): round to two decimal places, half to even. -/
def round2 (q : ℚ) : ℚ :=
  (roundHalfEven (q * 100) : ℚ) / 100

/-- Source `_to_float`: float(val) guarded by try/except; None, lists and
dicts give None; bools are numeric (float(True) = 1.0). -/
def toFloat : JVal → Option ℚ
  | .jnull => none
  | .jbool b => some (if b then 1 else 0)
  | .jnum q => some q
  | .jstr s => parsePyFloat s
  | .jarr _ => none
  | .jobj _ => none

/-- Source `_to_float` with the full float semantics: float(val) raises
only TypeError or ValueError here, both caught, so no exception escapes;
a string may parse to an infinity or NaN, which the function returns. -/
def toFloatFull : JVal → Option PyFloatVal
  | .jnull => none
  | .jbool b => some (.finite (if b then 1 else 0))
  | .jnum q => some (.finite q)
  | .jstr s => pyFloatOfString s
  | .jarr _ => none
  | .jobj _ => none

/-- Source `_to_int`: int(float(val)) guarded by `except (TypeError,
ValueError)`. int of a finite float truncates toward zero; int of NaN
raises ValueError, which the guard catches (None); int of an infinity
raises OverflowError, which the guard does NOT catch — that uncaught
exception is this function's `none`. -/
def toInt : JVal → PyRes (Option ℤ)
  | .jnull => some none
  | .jbool b => some (some (if b then 1 else 0))
  | .jnum q => some (some (pyTrunc q))
  | .jstr s =>
    match pyFloatOfString s with
    | none => some none
    | some (.finite q) => some (some (pyTrunc q))
    | some (.infinite _) => none
    | some .nan => some none
  | .jarr _ => some none
  | .jobj _ => some none

/-- Source `_first_present`: value of the first key present with a
non-None value. -/
def firstPresent (d : Rec) : List String → Option JVal
  | [] => none
  | k :: rest =>
    match rlookup d k with
    | some v => match v with
      | .jnull => firstPresent d rest
      | w => some w
    | none => firstPresent d rest

/-- Result of the source `_ceil_ft_from_layers`: the Python string "Clear"
or a float ceiling. -/
inductive CeilVal where
  | clear
  | ft (q : ℚ)
deriving DecidableEq

/-- Whether a layer's cover equals one of the strings BKN, OVC, VV
(Python `cover in ("BKN", "OVC", "VV")`). -/
def coverQualifies : JVal → Bool
  | .jstr s => s = "BKN" || s = "OVC" || s = "VV"
  | _ => false

/-- One iteration of the layer loop shared by both ceiling parsers:
`some (some b)` appends base b, `some none` skips the layer, `none` marks
the exception Python raises on a non-dict layer. -/
def layerBase (layer : JVal) : PyRes (Option ℚ) :=
  match layer with
  | .jobj d =>
    match coverQualifies (pyGet d "cover"), toFloat (pyGet d "base_ft_agl") with
    | true, some b => some (some b)
    | true, none => some none
    | false, _ => some none
  | _ => none

/-- The bases collected by the layer loop, or the exception. -/
def collectBases : List JVal → PyRes (List ℚ)
  | [] => some []
  | layer :: rest =>
    match layerBase layer with
    | none => none
    | some ob =>
      match collectBases rest with
      | none => none
      | some bs =>
        match ob with
        | some b => some (b :: bs)
        | none => some bs

/-- Python min over a non-empty float list. -/
def listMin (b : ℚ) (rest : List ℚ) : ℚ :=
  rest.foldl min b

/-- Source `_ceil_ft_from_layers` (sensor.py lines 114-131): "Clear" when
the clouds field is falsy or no BKN/OVC/VV layer has a parseable base,
else the minimum such base. -/
def ceilFtFromLayers (metar : Rec) : PyRes CeilVal :=
  let layers := pyGet metar "clouds"
  if truthy layers = false then some .clear
  else
    match layers with
    | .jarr xs =>
      match collectBases xs with
      | none => none
      | some [] => some .clear
      | some (b :: rest) => some (.ft (listMin b rest))
    | _ => none

/-- Source `_parse_ceiling_ft` (sensor.py lines 253-266): identical loop,
but returns the number 0 instead of "Clear" in both no-ceiling cases. -/
def parseCeilingFt (metar : Rec) : PyRes ℚ :=
  let layers := pyGet metar "clouds"
  if truthy layers = false then some 0
  else
    match layers with
    | .jarr xs =>
      match collectBases xs with
      | none => none
      | some [] => some 0
      | some (b :: rest) => some (listMin b rest)
    | _ => none

/-- Alias keys tried for a structured visibility value in statute miles. -/
def visSmKeys : List String := ["visib", "vis", "visibility", "visSm"]

/-- Alias keys tried for a structured visibility value in meters. -/
def visMetersKeys : List String := ["visibilityMeters", "visMeters", "vis_m"]

/-- Meters per statute mile used by the source. -/
def milesPerMeterDen : ℚ := 1609344 / 1000

/-- Fallthrough of `_flight_category_from_metar` (sensor.py lines 143-167)
after the explicit-category check: classify from `_parse_ceiling_ft` and the
structured visibility fields. `_parse_ceiling_ft` always returns a number,
so the source's `ceiling is None` tests specialize to False; we keep the
Option shape of the source text. -/
def flightCategoryCompute (metar : Rec) : PyRes (Option String) :=
  match parseCeilingFt metar with
  | none => none
  | some ceilingVal =>
    let ceiling : Option ℚ := some ceilingVal
    let visSm0 := toFloat ((firstPresent metar visSmKeys).getD .jnull)
    let visM := toFloat ((firstPresent metar visMetersKeys).getD .jnull)
    let visSm : Option ℚ :=
      match visSm0, visM with
      | none, some vm => some (vm / milesPerMeterDen)
      | v, _ => v
    if ceiling = none ∧ visSm = none then some none
    else
      let ceilingEff := ceiling.getD 99999
      let visEff := visSm.getD 99
      if ceilingEff < 500 ∨ visEff < 1 then some (some "LIFR")
      else if ceilingEff < 1000 ∨ visEff < 3 then some (some "IFR")
      else if ceilingEff < 3000 ∨ visEff < 5 then some (some "MVFR")
      else some (some "VFR")

/-- Source `_flight_category_from_metar` (sensor.py lines 135-167): a
non-empty explicit category field wins, stripped and uppercased; otherwise
classify from ceiling and visibility. -/
def flightCategoryFromMetar (metar : Rec) : PyRes (Option String) :=
  match firstPresent metar ["fltCat", "flightCategory", "fltcat"] with
  | some (.jstr s) =>
    if pyStrip s ≠ "" then some (some (pyUpper (pyStrip s)))
    else flightCategoryCompute metar
  | _ => flightCategoryCompute metar

/-- Expect the literal "SM" followed by a word boundary: the tail of the
regex (?:...)SM\b at the point after the digits. -/
def smBoundary : List Char → Bool
  | 'S' :: 'M' :: rest =>
    match rest with
    | [] => true
    | c :: _ => !isWordChar c
  | _ => false

/-- A match of the visibility regex: the whole-mile digits (0 when only a
fraction matched) and the optional numerator/denominator pair. -/
abbrev VisMatch := ℕ × Option (ℕ × ℕ)

/-- First alternative of the source regex (?:(P)?(\d+)(?:\s+(\d+)/(\d+))?)SM\b
after the optional P: greedy digits, then the optional spaced fraction
(preferred), then the bare SM. Greedy runs never need to give characters
back here, because every follow set excludes a digit. -/
def branch1core (l : List Char) : Option VisMatch :=
  let (d1, r1) := takeDigits l
  if d1 = [] then none
  else
    let pathA : Option VisMatch :=
      let (w, r2) := takeSpaces r1
      if w = [] then none
      else
        let (d2, r3) := takeDigits r2
        if d2 = [] then none
        else
          match r3 with
          | '/' :: r4 =>
            let (d3, r5) := takeDigits r4
            if d3 = [] then none
            else if smBoundary r5 then
              some (digitsToNat d1, some (digitsToNat d2, digitsToNat d3))
            else none
          | _ => none
    match pathA with
    | some v => some v
    | none =>
      if smBoundary r1 then some (digitsToNat d1, none) else none

/-- First alternative with the optional leading P: taking the P can only
succeed when digits follow, and not taking it then fails on the P itself. -/
def branch1 : List Char → Option VisMatch
  | 'P' :: rest => branch1core rest
  | l => branch1core l

/-- Second alternative of the source regex: (\d+)/(\d+)SM\b with no whole
part, giving whole = 0 as in the source (vis starts at 0.0). -/
def branch2 (l : List Char) : Option VisMatch :=
  let (d4, r1) := takeDigits l
  if d4 = [] then none
  else
    match r1 with
    | '/' :: r2 =>
      let (d5, r3) := takeDigits r2
      if d5 = [] then none
      else if smBoundary r3 then some (0, some (digitsToNat d4, digitsToNat d5))
      else none
    | _ => none

/-- Attempt of the whole alternation at one position (left branch first,
as the re module does). -/
def visMatchAt (l : List Char) : Option VisMatch :=
  match branch1 l with
  | some v => some v
  | none => branch2 l

/-- re.search of the visibility pattern: leftmost position wins; the
leading \b asks the previous character to be a non-word character, since
every match starts with the word character P or a digit. -/
def visSearchAux (prevWord : Bool) : List Char → Option VisMatch
  | [] => none
  | c :: rest =>
    match if prevWord then none else visMatchAt (c :: rest) with
    | some v => some v
    | none => visSearchAux (isWordChar c) rest

/-- Search from the start of the string (no previous character). -/
def visSearch (l : List Char) : Option VisMatch :=
  visSearchAux false l

/-- Whether the raw text contains the substring CAVOK. -/
def hasCAVOK : List Char → Bool
  | [] => false
  | c :: rest =>
    (match c :: rest with
     | 'C' :: 'A' :: 'V' :: 'O' :: 'K' :: _ => true
     | _ => false) || hasCAVOK rest

/-- Source `_parse_vis_from_raw_sm` (sensor.py lines 185-207): empty text
gives None; a regex match gives whole + num/den (a zero denominator raises
ZeroDivisionError, marked by the `none` of `PyRes`); otherwise 6.2 when the
text contains CAVOK, else None. -/
def parseVisFromRawSm (raw : String) : PyRes (Option ℚ) :=
  if raw = "" then some none
  else
    match visSearch raw.data with
    | some (w, frac) =>
      match frac with
      | some (n, d) =>
        if d = 0 then none else some (some ((w : ℚ) + (n : ℚ) / (d : ℚ)))
      | none => some (some (w : ℚ))
    | none =>
      if hasCAVOK raw.data then some (some (62 / 10)) else some none

/-- Alias keys tried for the raw METAR text. -/
def rawTextKeys : List String := ["rawOb", "rawText", "text", "metar"]

/-- Source `_visibility_sm` (sensor.py lines 210-226): structured SM value,
else meters converted, else parse of the raw text when it is a string,
else None. -/
def visibilitySm (metar : Rec) : PyRes (Option ℚ) :=
  match toFloat ((firstPresent metar visSmKeys).getD .jnull) with
  | some v => some (some v)
  | none =>
    match toFloat ((firstPresent metar visMetersKeys).getD .jnull) with
    | some vm => some (some (vm / milesPerMeterDen))
    | none =>
      match firstPresent metar rawTextKeys with
      | some (.jstr raw) => parseVisFromRawSm raw
      | _ => some none

/-- hPa per inHg constant ALTIM_HPA_PER_INHG of the source. -/
def ALTIM_HPA_PER_INHG : ℚ := 338638866667 / 10 ^ 10

/-- Attempt of the pattern \b<c>(\d{4})\b at the head of the list: the
letter, exactly four digits, and a trailing word boundary. -/
def tokenAt (c : Char) : List Char → Option ℕ
  | c0 :: d1 :: d2 :: d3 :: d4 :: rest =>
    if c0 = c && isDigit d1 && isDigit d2 && isDigit d3 && isDigit d4
        && (match rest with | [] => true | r :: _ => !isWordChar r) then
      some (digitsToNat [d1, d2, d3, d4])
    else none
  | _ => none

/-- re.search of \b<c>(\d{4})\b: scan left to right, a position is eligible
when the previous character is not a word character. -/
def tokenSearchAux (c : Char) (prevWord : Bool) : List Char → Option ℕ
  | [] => none
  | x :: rest =>
    match if prevWord then none else tokenAt c (x :: rest) with
    | some n => some n
    | none => tokenSearchAux c (isWordChar x) rest

/-- Search from the start of the string. -/
def tokenSearch (c : Char) (l : List Char) : Option ℕ :=
  tokenSearchAux c false l

/-- Numeric tail of `_altimeter_to_inhg`: values above 80 are hPa and get
converted, others are already inHg; both rounded to 2 decimals. -/
def altimeterNumeric (f : ℚ) : ℚ :=
  if f > 80 then round2 (f / ALTIM_HPA_PER_INHG) else round2 f

/-- Source `_altimeter_to_inhg` (sensor.py lines 32-63): None for None;
for a string, strip and uppercase, then the A-token, then the Q-token, then
float(s) feeding the numeric path; other values go to `_to_float` and the
numeric path. -/
def altimeterToInhg (val : JVal) : Option ℚ :=
  match val with
  | .jnull => none
  | .jstr s0 =>
    let s := pyUpper (pyStrip s0)
    match tokenSearch 'A' s.data with
    | some n => some (round2 ((n : ℚ) / 100))
    | none =>
      match tokenSearch 'Q' s.data with
      | some n => some (round2 ((n : ℚ) / ALTIM_HPA_PER_INHG))
      | none =>
        match parsePyFloat s with
        | none => none
        | some f => some (altimeterNumeric f)
  | v =>
    match toFloat v with
    | none => none
    | some f => some (altimeterNumeric f)

/-- Alias keys tried for the altimeter field. -/
def altimKeys : List String := ["altim", "altimHg", "altimeter", "altim_inhg", "qnh", "QNH"]

/-- Source `_altim_inhg`: alias lookup then `_altimeter_to_inhg`. -/
def altimInhg (metar : Rec) : Option ℚ :=
  altimeterToInhg ((firstPresent metar altimKeys).getD .jnull)

/-- Source `_temp_c`: alias lookup then `_to_float`. -/
def tempC (metar : Rec) : Option ℚ :=
  toFloat ((firstPresent metar ["temp", "tempC", "temperature", "tmpc"]).getD .jnull)

/-- Source `_pressure_altitude_ft`. -/
def pressureAltitudeFt (fieldElevFt altimeterInhg : ℚ) : ℚ :=
  fieldElevFt + (2992 / 100 - altimeterInhg) * 1000

/-- Source `_isa_temp_c_at_alt_ft`. -/
def isaTempCAtAltFt (altFt : ℚ) : ℚ :=
  15 - 2 * (altFt / 1000)

/-- Source `_density_altitude_ft` (sensor.py lines 282-285). -/
def densityAltitudeFt (fieldElevFt altimeterInhg oatC : ℚ) : ℚ :=
  let pa := pressureAltitudeFt fieldElevFt altimeterInhg
  let isa := isaTempCAtAltFt pa
  pa + 120 * (oatC - isa)

/-- Static elevation table FIELD_ELEV_FT of the source. -/
def FIELD_ELEV_FT : List (String × ℤ) :=
  [("KCLT", 748), ("KINT", 969), ("KRUQ", 772)]

/-- Source `_metar_item`: (data.get("metar", {}) or {}).get(icao); calling
.get on a non-dict value raises. -/
def metarItem (data : Rec) (icao : String) : PyRes (Option JVal) :=
  let mv := (rlookup data "metar").getD (.jobj [])
  let mv2 := if truthy mv then mv else .jobj []
  match mv2 with
  | .jobj fields => some (rlookup fields icao)
  | _ => none

/-- Source `_density_altitude_station` (sensor.py lines 287-302): None
without a truthy METAR record, a known elevation, a decoded altimeter and a
decoded temperature; else int(round(density altitude)). A truthy non-dict
METAR value would make the alias lookups raise; that is the final `none`. -/
def densityAltitudeStation (data : Rec) (icao : String) : PyRes (Option ℤ) :=
  match metarItem data icao with
  | none => none
  | some mi =>
    let metar : JVal :=
      match mi with
      | some v => if truthy v then v else .jobj []
      | none => .jobj []
    if truthy metar = false then some none
    else
      match metar with
      | .jobj md =>
        match rlookup FIELD_ELEV_FT icao with
        | none => some none
        | some elevFt =>
          match altimInhg md, tempC md with
          | some a, some t =>
            some (some (roundHalfEven (densityAltitudeFt (elevFt : ℚ) a t)))
          | some _, none => some none
          | none, _ => some none
      | _ => none

/-- Loop of coordinator._fetch over the wrapper keys data/results/endpoint:
first key holding a list wins, else the empty list. -/
def wrapperKeys (fields : List (String × JVal)) : List String → List JVal
  | [] => []
  | k :: rest =>
    match rlookup fields k with
    | some (.jarr xs) => xs
    | _ => wrapperKeys fields rest

/-- Shape normalization of coordinator._fetch (coordinator.py lines 54-62):
a bare list is itself, a dict is unwrapped at data/results/endpoint, and
every other parseable shape is the empty list. -/
def normalizePayload (endpoint : String) (payload : JVal) : List JVal :=
  match payload with
  | .jarr xs => xs
  | .jobj fields => wrapperKeys fields ["data", "results", endpoint]
  | _ => []

/-- coordinator._fetch after the HTTP exchange (coordinator.py lines 44-62):
204 is zero records, a status other than 200 raises UpdateFailed with the
endpoint, status and truncated body, and 200 normalizes the payload. -/
def fetchResult (endpoint : String) (status : ℕ) (body : String)
    (payload : JVal) : Except String (List JVal) :=
  if status = 204 then .ok []
  else if status ≠ 200 then
    .error (endpoint ++ " HTTP " ++ toString status ++ ": " ++ (String.mk (body.data.take 200)))
  else .ok (normalizePayload endpoint payload)

/-- Station key of one fetched record, as in the aggregation dict
comprehensions (coordinator.py lines 76-85): the comprehension guard
`m.get("icaoId") or m.get("stationId")` drops a record whose both fields
are falsy (`some none`), and the key expression calls .upper() on the
chosen value, raising on a truthy non-string (`none`). -/
def recordKey (m : Rec) : PyRes (Option String) :=
  let ident := if truthy (pyGet m "icaoId") then pyGet m "icaoId" else pyGet m "stationId"
  if truthy ident then
    match ident with
    | .jstr s => some (some (pyUpper s))
    | _ => none
  else some none

/-- Station key of a raw record value; a non-dict record makes .get raise. -/
def recordKeyOf : JVal → PyRes (Option String)
  | .jobj m => recordKey m
  | _ => none

/-- One dict comprehension of the aggregation: key each kept record by its
station key (duplicate keys would collapse in a Python dict; the key set is
unchanged by keeping both bindings). -/
def buildMap : List JVal → PyRes (List (String × JVal))
  | [] => some []
  | r :: rest =>
    match recordKeyOf r with
    | none => none
    | some none => buildMap rest
    | some (some k) =>
      match buildMap rest with
      | none => none
      | some tl => some ((k, r) :: tl)

/-- The snapshot dict built by the aggregation. -/
structure Snapshot where
  icaos : List String
  metar : List (String × JVal)
  taf : List (String × JVal)

/-- Snapshot assembly of the coordinator (coordinator.py lines 74-86). -/
def buildSnapshot (icaos : List String) (metars tafs : List JVal) : PyRes Snapshot :=
  match buildMap metars, buildMap tafs with
  | some m, some t => some ⟨icaos, m, t⟩
  | some _, none => none
  | none, _ => none

/-- Wrapper keys tried by notams._extract_list. -/
def notamKeys : List String := ["notams", "items", "data", "results"]

/-- Whether a value is a dict (the isinstance(x, dict) filters). -/
def isObj : JVal → Bool
  | .jobj _ => true
  | _ => false

/-- Error message raised by notams._extract_list. -/
def notamShapeErr : String :=
  "Unexpected NOTAM payload shape (expected list or dict with notams/items/data/results)."

/-- Loop of notams._extract_list over its wrapper keys: the first key
holding a list wins (keeping only dict items); no key found raises. -/
def notamWrapperKeys (fields : List (String × JVal)) : List String → Except String (List JVal)
  | [] => .error notamShapeErr
  | k :: rest =>
    match rlookup fields k with
    | some (.jarr xs) => .ok (xs.filter isObj)
    | _ => notamWrapperKeys fields rest

/-- Source notams._extract_list (notams.py lines 67-84): a bare list keeps
its dict items; a dict is unwrapped at notams/items/data/results; every
other shape raises ValueError. -/
def extractList (payload : JVal) : Except String (List JVal) :=
  match payload with
  | .jarr xs => .ok (xs.filter isObj)
  | .jobj fields => notamWrapperKeys fields notamKeys
  | _ => .error notamShapeErr

/-- The HTTP exchange of one NOTAM fetch, seen from the caller: a timeout
or a response carrying a status and the parsed JSON body. -/
inductive HttpOutcome where
  | timeout
  | response (status : ℕ) (payload : JVal)

/-- Normalized station code of notams.py line 98: `(icao or "").strip().upper()`
(the `or ""` only replaces the one falsy string, the empty one). -/
def notamIcao (icao0 : String) : String :=
  pyUpper (pyStrip (if icao0 = "" then "" else icao0))

/-- Source notams.fetch_notams_for_icao (notams.py lines 87-141): normalize
the code, reject a length other than 4, raise a RuntimeError naming the
station and base_url on timeout or on the ClientResponseError of
raise_for_status (status 400 and above), else extract the record list. -/
def fetchNotamsForIcao (icao0 : String) (baseUrl : String)
    (outcome : HttpOutcome) : Except String (List JVal) :=
  let icao := notamIcao icao0
  if icao.length ≠ 4 then
    .error ("ICAO must be 4 letters, got: " ++ icao)
  else
    match outcome with
    | .timeout =>
      .error ("NOTAM request timed out for " ++ icao ++ " (base_url=" ++ baseUrl ++ ")")
    | .response status payload =>
      if 400 ≤ status then
        .error ("NOTAM request failed for " ++ icao ++ ": HTTP " ++ toString status
          ++ " (base_url=" ++ baseUrl ++ ")")
      else extractList payload

theorem listMin_mem : ∀ (rest : List ℚ) (b : ℚ), listMin b rest ∈ b :: rest
  | [], b => by simp [listMin]
  | c :: t, b => by
    have ih := listMin_mem t (min b c)
    have hstep : listMin b (c :: t) = listMin (min b c) t := rfl
    rw [hstep]
    rcases List.mem_cons.mp ih with h | h
    · rcases min_choice b c with hm | hm
      · rw [h, hm]; exact List.mem_cons_self _ _
      · rw [h, hm]; exact List.mem_cons_of_mem _ (List.mem_cons_self _ _)
    · exact List.mem_cons_of_mem _ (List.mem_cons_of_mem _ h)

theorem listMin_le : ∀ (rest : List ℚ) (b x : ℚ), x ∈ b :: rest → listMin b rest ≤ x
  | [], b, x, h => by
    rcases List.mem_cons.mp h with hx | hx
    · subst hx; exact le_refl _
    · exact absurd hx (List.not_mem_nil x)
  | c :: t, b, x, h => by
    have hstep : listMin b (c :: t) = listMin (min b c) t := rfl
    rw [hstep]
    have hhead : listMin (min b c) t ≤ min b c :=
      listMin_le t (min b c) (min b c) (List.mem_cons_self _ _)
    rcases List.mem_cons.mp h with hx | hx
    · subst hx; exact le_trans hhead (min_le_left _ _)
    · rcases List.mem_cons.mp hx with hx2 | hx2
      · subst hx2; exact le_trans hhead (min_le_right _ _)
      · exact listMin_le t (min b c) x (List.mem_cons_of_mem _ hx2)

/-- C1: for a METAR with no explicit flight-category field, the code does
NOT return an absent result when ceiling and visibility are both absent:
`_parse_ceiling_ft` yields the number 0 for a report with no qualifying
cloud layer, so the classifier sees a 0 ft ceiling and answers "LIFR" —
both for a report with neither field and for a clear-sky report whose
visibility of 10 mi should give "VFR". The ceiling=400, visibility=5 case
does yield "LIFR" as the claim states. -/
theorem C1_flight_category_clear_sky_eval :
    flightCategoryFromMetar [("temp", .jnum 20)] = some (some "LIFR")
    ∧ flightCategoryFromMetar [("visib", .jnum 10)] = some (some "LIFR")
    ∧ flightCategoryFromMetar
        [("clouds", .jarr [.jobj [("cover", .jstr "BKN"), ("base_ft_agl", .jnum 400)]]),
         ("visib", .jnum 5)] = some (some "LIFR") :=
  ⟨rfl, rfl, rfl⟩

/-- C2: `_ceil_ft_from_layers` returns the distinguished "Clear" sentinel
when the clouds list is empty, absent, or has no BKN/OVC/VV layer with a
parseable base (never the number 0), and otherwise the minimum qualifying
base: it is "Clear" exactly when the collected qualifying bases are empty,
and a numeric answer is a member of and a lower bound of those bases; the
three spec examples evaluate as stated. -/
theorem C2_ceiling_from_layers :
    (∀ (m : Rec) (xs : List JVal) (bs : List ℚ),
      pyGet m "clouds" = .jarr xs →
      collectBases xs = some bs →
      ((bs = [] → ceilFtFromLayers m = some .clear)
        ∧ (∀ q : ℚ, ceilFtFromLayers m = some (.ft q) →
            q ∈ bs ∧ ∀ b ∈ bs, q ≤ b)))
    ∧ (∀ m : Rec, truthy (pyGet m "clouds") = false →
        ceilFtFromLayers m = some .clear)
    ∧ ceilFtFromLayers [("clouds", .jarr [])] = some .clear
    ∧ ceilFtFromLayers
        [("clouds", .jarr [.jobj [("cover", .jstr "FEW"), ("base_ft_agl", .jnum 2000)]])]
        = some .clear
    ∧ ceilFtFromLayers
        [("clouds", .jarr
          [.jobj [("cover", .jstr "BKN"), ("base_ft_agl", .jnum 2500)],
           .jobj [("cover", .jstr "OVC"), ("base_ft_agl", .jnum 1800)]])]
        = some (.ft 1800) := by
  refine ⟨?_, ?_, rfl, rfl, by decide⟩
  · intro m xs bs hget hcol
    cases xs with
    | nil =>
      simp [collectBases] at hcol
      subst hcol
      constructor
      · intro _; simp [ceilFtFromLayers, hget, truthy]
      · intro q hq
        simp [ceilFtFromLayers, hget, truthy] at hq
    | cons l ls =>
      have htr : truthy (JVal.jarr (l :: ls)) = true := by simp [truthy]
      constructor
      · intro hbs
        subst hbs
        simp [ceilFtFromLayers, hget, truthy, hcol]
      · intro q hq
        simp only [ceilFtFromLayers, hget, truthy, List.isEmpty_cons, Bool.not_false,
          Bool.true_eq_false, if_neg, hcol] at hq
        cases bs with
        | nil => simp at hq
        | cons b rest =>
          simp at hq
          constructor
          · rw [← hq]; exact listMin_mem rest b
          · intro x hx; rw [← hq]; exact listMin_le rest b x hx
  · intro m hfalse
    simp [ceilFtFromLayers, hfalse]

/-- C2 witness: the two-layer example instantiates the general part. -/
theorem C2_ceiling_from_layers_witness :
    collectBases
      [.jobj [("cover", .jstr "BKN"), ("base_ft_agl", .jnum 2500)],
       .jobj [("cover", .jstr "OVC"), ("base_ft_agl", .jnum 1800)]]
      = some [2500, 1800]
    ∧ (∀ q : ℚ,
        ceilFtFromLayers
          [("clouds", .jarr
            [.jobj [("cover", .jstr "BKN"), ("base_ft_agl", .jnum 2500)],
             .jobj [("cover", .jstr "OVC"), ("base_ft_agl", .jnum 1800)]])]
          = some (.ft q) →
        q ∈ [(2500 : ℚ), 1800] ∧ ∀ b ∈ [(2500 : ℚ), 1800], q ≤ b) :=
  ⟨by decide,
   (C2_ceiling_from_layers.1
    [("clouds", .jarr
      [.jobj [("cover", .jstr "BKN"), ("base_ft_agl", .jnum 2500)],
       .jobj [("cover", .jstr "OVC"), ("base_ft_agl", .jnum 1800)]])]
    [.jobj [("cover", .jstr "BKN"), ("base_ft_agl", .jnum 2500)],
     .jobj [("cover", .jstr "OVC"), ("base_ft_agl", .jnum 1800)]]
    [2500, 1800] rfl (by decide)).2⟩

/-- C6: the duplicated ceiling implementations disagree: on a report with
no clouds field `_ceil_ft_from_layers` answers "Clear" while
`_parse_ceiling_ft` answers the number 0. -/
theorem C6_ceiling_duplicates_counterexample :
    ¬ (ceilFtFromLayers ([] : Rec) = (parseCeilingFt ([] : Rec)).map CeilVal.ft) := by
  decide

/-- C6 (amended): the two implementations agree whenever some BKN/OVC/VV
layer with a parseable base exists; when no qualifying base exists (falsy
clouds field, or a layer list collecting no base) `_ceil_ft_from_layers`
returns "Clear" while `_parse_ceiling_ft` returns 0. -/
theorem C6_ceiling_duplicates_amended :
    (∀ (m : Rec) (xs : List JVal) (bs : List ℚ),
      pyGet m "clouds" = .jarr xs →
      collectBases xs = some bs →
      bs ≠ [] →
      ceilFtFromLayers m = (parseCeilingFt m).map CeilVal.ft)
    ∧ (∀ (m : Rec) (xs : List JVal),
        pyGet m "clouds" = .jarr xs →
        xs ≠ [] →
        collectBases xs = some [] →
        ceilFtFromLayers m = some .clear ∧ parseCeilingFt m = some 0)
    ∧ (∀ m : Rec, truthy (pyGet m "clouds") = false →
        ceilFtFromLayers m = some .clear ∧ parseCeilingFt m = some 0) := by
  refine ⟨?_, ?_, ?_⟩
  · intro m xs bs hget hcol hne
    cases xs with
    | nil =>
      simp [collectBases] at hcol
      subst hcol
      exact absurd rfl hne
    | cons l ls =>
      cases bs with
      | nil => exact absurd rfl hne
      | cons b rest =>
        simp [ceilFtFromLayers, parseCeilingFt, hget, truthy, hcol]
  · intro m xs hget hne hcol
    cases xs with
    | nil => exact absurd rfl hne
    | cons l ls =>
      constructor
      · simp [ceilFtFromLayers, hget, truthy, hcol]
      · simp [parseCeilingFt, hget, truthy, hcol]
  · intro m hfalse
    exact ⟨by simp [ceilFtFromLayers, hfalse], by simp [parseCeilingFt, hfalse]⟩

/-- C6 witness: the agreement case at the two-layer example. -/
theorem C6_ceiling_duplicates_amended_witness :
    ceilFtFromLayers
      [("clouds", .jarr
        [.jobj [("cover", .jstr "BKN"), ("base_ft_agl", .jnum 2500)],
         .jobj [("cover", .jstr "OVC"), ("base_ft_agl", .jnum 1800)]])]
      = (parseCeilingFt
          [("clouds", .jarr
            [.jobj [("cover", .jstr "BKN"), ("base_ft_agl", .jnum 2500)],
             .jobj [("cover", .jstr "OVC"), ("base_ft_agl", .jnum 1800)]])]).map CeilVal.ft :=
  C6_ceiling_duplicates_amended.1
    [("clouds", .jarr
      [.jobj [("cover", .jstr "BKN"), ("base_ft_agl", .jnum 2500)],
       .jobj [("cover", .jstr "OVC"), ("base_ft_agl", .jnum 1800)]])]
    [.jobj [("cover", .jstr "BKN"), ("base_ft_agl", .jnum 2500)],
     .jobj [("cover", .jstr "OVC"), ("base_ft_agl", .jnum 1800)]]
    [2500, 1800] rfl (by decide) (by decide)

/-- C3: with a truthy METAR record, a known field elevation, a decoded
altimeter and a decoded temperature, `_density_altitude_station` returns
the integer round of pa + 120 * (t - (15 - 2 * pa / 1000)) with
pa = elevation + (29.92 - altimeter) * 1000; when the elevation is unknown
or the altimeter or temperature does not decode, it returns None. -/
theorem C3_density_altitude :
    (∀ (data : Rec) (icao : String) (md : Rec) (elevFt : ℤ) (a t : ℚ),
      metarItem data icao = some (some (.jobj md)) →
      truthy (.jobj md) = true →
      rlookup FIELD_ELEV_FT icao = some elevFt →
      altimInhg md = some a →
      tempC md = some t →
      densityAltitudeStation data icao =
        some (some (roundHalfEven
          (((elevFt : ℚ) + (2992 / 100 - a) * 1000)
            + 120 * (t - (15 - 2 * (((elevFt : ℚ) + (2992 / 100 - a) * 1000) / 1000)))))))
    ∧ (∀ (data : Rec) (icao : String) (md : Rec),
        metarItem data icao = some (some (.jobj md)) →
        truthy (.jobj md) = true →
        ((rlookup FIELD_ELEV_FT icao = none →
            densityAltitudeStation data icao = some none)
          ∧ (altimInhg md = none →
            densityAltitudeStation data icao = some none)
          ∧ (tempC md = none →
            densityAltitudeStation data icao = some none))) := by
  constructor
  · intro data icao md elevFt a t hmi htr helev ha ht
    simp only [densityAltitudeStation, hmi, htr, if_true, Bool.true_eq_false,
      if_neg, helev, ha, ht]
    simp [densityAltitudeFt, pressureAltitudeFt, isaTempCAtAltFt]
  · intro data icao md hmi htr
    refine ⟨?_, ?_, ?_⟩
    · intro helev
      simp [densityAltitudeStation, hmi, htr, helev]
    · intro ha
      cases helev : rlookup FIELD_ELEV_FT icao with
      | none => simp [densityAltitudeStation, hmi, htr, helev]
      | some e => simp [densityAltitudeStation, hmi, htr, helev, ha]
    · intro ht
      cases helev : rlookup FIELD_ELEV_FT icao with
      | none => simp [densityAltitudeStation, hmi, htr, helev]
      | some e =>
        cases ha : altimInhg md with
        | none => simp [densityAltitudeStation, hmi, htr, helev, ha]
        | some a => simp [densityAltitudeStation, hmi, htr, helev, ha, ht]

/-- C3 witness: KCLT with altimeter 29.92 inHg and temperature 30 °C gives
a density altitude of 2728 ft. -/
theorem C3_density_altitude_witness :
    densityAltitudeStation
      [("metar", .jobj [("KCLT", .jobj [("altim", .jnum (2992 / 100)), ("temp", .jnum 30)])])]
      "KCLT" = some (some 2728) :=
  (C3_density_altitude.1
    [("metar", .jobj [("KCLT", .jobj [("altim", .jnum (2992 / 100)), ("temp", .jnum 30)])])]
    "KCLT"
    [("altim", .jnum (2992 / 100)), ("temp", .jnum 30)]
    748 (2992 / 100) 30 rfl rfl rfl
    (by norm_num [altimInhg, firstPresent, rlookup, altimeterToInhg, toFloat,
      altimeterNumeric, round2, roundHalfEven])
    rfl).trans
    (by norm_num [roundHalfEven])

/-- C5: the claim asserts altimeter("Q1013") = 29.92, but 1013 hPa divided
by 33.8638866667 is about 29.9139, which rounds to 29.91. -/
theorem C5_altimeter_q1013_counterexample :
    altimeterToInhg (.jstr "Q1013") ≠ some (2992 / 100) := by
  have hA : tokenSearch 'A' (pyUpper (pyStrip "Q1013")).data = none := by decide
  have hQ : tokenSearch 'Q' (pyUpper (pyStrip "Q1013")).data = some 1013 := by decide
  simp only [altimeterToInhg, hA, hQ]
  norm_num [round2, roundHalfEven, ALTIM_HPA_PER_INHG]

/-- C5 (amended): "A<dddd>" decodes to the four digits divided by 100
("A3011" gives 30.11); "Q<dddd>" decodes to the four digits divided by
33.8638866667 rounded to 2 decimals, so "Q1013" gives 29.91 (not 29.92);
a bare number n above 80 gives round2(n / 33.8638866667) and any other
bare number gives round2(n). -/
theorem C5_altimeter_decoder_amended :
    (∀ (s : String) (n : ℕ),
      tokenSearch 'A' (pyUpper (pyStrip s)).data = some n →
      altimeterToInhg (.jstr s) = some (round2 ((n : ℚ) / 100)))
    ∧ (∀ (s : String) (n : ℕ),
        tokenSearch 'A' (pyUpper (pyStrip s)).data = none →
        tokenSearch 'Q' (pyUpper (pyStrip s)).data = some n →
        altimeterToInhg (.jstr s) = some (round2 ((n : ℚ) / (338638866667 / 10 ^ 10))))
    ∧ altimeterToInhg (.jstr "A3011") = some (3011 / 100)
    ∧ altimeterToInhg (.jstr "Q1013") = some (2991 / 100)
    ∧ (∀ q : ℚ, q > 80 →
        altimeterToInhg (.jnum q) = some (round2 (q / (338638866667 / 10 ^ 10))))
    ∧ (∀ q : ℚ, ¬ q > 80 →
        altimeterToInhg (.jnum q) = some (round2 q)) := by
  refine ⟨?_, ?_, ?_, ?_, ?_, ?_⟩
  · intro s n hA
    simp [altimeterToInhg, hA]
  case refine_3 =>
    have hA : tokenSearch 'A' (pyUpper (pyStrip "A3011")).data = some 3011 := by decide
    simp only [altimeterToInhg, hA]
    norm_num [round2, roundHalfEven]
  case refine_4 =>
    have hA : tokenSearch 'A' (pyUpper (pyStrip "Q1013")).data = none := by decide
    have hQ : tokenSearch 'Q' (pyUpper (pyStrip "Q1013")).data = some 1013 := by decide
    simp only [altimeterToInhg, hA, hQ]
    norm_num [round2, roundHalfEven, ALTIM_HPA_PER_INHG]
  · intro s n hA hQ
    simp [altimeterToInhg, hA, hQ, ALTIM_HPA_PER_INHG]
  · intro q hq
    simp [altimeterToInhg, toFloat, altimeterNumeric, hq, ALTIM_HPA_PER_INHG]
  · intro q hq
    simp [altimeterToInhg, toFloat, altimeterNumeric, hq]

/-- C5 witness: the Q-token case at "Q1013" and the bare-number case at
1013 hPa both give 29.91. -/
theorem C5_altimeter_decoder_amended_witness :
    altimeterToInhg (.jstr "Q1013")
      = some (round2 (((1013 : ℕ) : ℚ) / (338638866667 / 10 ^ 10)))
    ∧ altimeterToInhg (.jnum 1013)
      = some (round2 ((1013 : ℚ) / (338638866667 / 10 ^ 10))) :=
  ⟨(C5_altimeter_decoder_amended.2.1 "Q1013" 1013 (by decide) (by decide)),
   (C5_altimeter_decoder_amended.2.2.2.2.1 1013 (by norm_num))⟩

/-- C4: `_visibility_sm` follows the priority chain — a structured SM alias
value that coerces to a number wins; else a meters alias divided by
1609.344; else the parse of the raw text when the raw alias holds a string;
else None — and the raw parse gives 1.5 for "1 1/2SM", 6 for "P6SM", 0.75
for "3/4SM", and 6.2 for a CAVOK report with no SM group. -/
theorem C4_visibility_chain :
    (∀ (m : Rec) (v : ℚ),
      toFloat ((firstPresent m visSmKeys).getD .jnull) = some v →
      visibilitySm m = some (some v))
    ∧ (∀ (m : Rec) (vm : ℚ),
        toFloat ((firstPresent m visSmKeys).getD .jnull) = none →
        toFloat ((firstPresent m visMetersKeys).getD .jnull) = some vm →
        visibilitySm m = some (some (vm / (1609344 / 1000))))
    ∧ (∀ (m : Rec) (raw : String),
        toFloat ((firstPresent m visSmKeys).getD .jnull) = none →
        toFloat ((firstPresent m visMetersKeys).getD .jnull) = none →
        firstPresent m rawTextKeys = some (.jstr raw) →
        visibilitySm m = parseVisFromRawSm raw)
    ∧ (∀ m : Rec,
        toFloat ((firstPresent m visSmKeys).getD .jnull) = none →
        toFloat ((firstPresent m visMetersKeys).getD .jnull) = none →
        (∀ s : String, firstPresent m rawTextKeys ≠ some (.jstr s)) →
        visibilitySm m = some none)
    ∧ parseVisFromRawSm "1 1/2SM" = some (some (3 / 2))
    ∧ parseVisFromRawSm "P6SM" = some (some 6)
    ∧ parseVisFromRawSm "3/4SM" = some (some (3 / 4))
    ∧ parseVisFromRawSm "EGLL 121200Z 24010KT CAVOK 18/09 Q1022" = some (some (62 / 10)) := by
  refine ⟨?_, ?_, ?_, ?_, ?_, ?_, ?_, ?_⟩
  · intro m v hsm
    simp [visibilitySm, hsm]
  · intro m vm hsm hme
    simp [visibilitySm, hsm, hme, milesPerMeterDen]
  · intro m raw hsm hme hraw
    simp [visibilitySm, hsm, hme, hraw]
  · intro m hsm hme hraw
    cases hfp : firstPresent m rawTextKeys with
    | none => simp [visibilitySm, hsm, hme, hfp]
    | some v =>
      cases v with
      | jstr s => exact absurd hfp (hraw s)
      | jnull => simp [visibilitySm, hsm, hme, hfp]
      | jbool b => simp [visibilitySm, hsm, hme, hfp]
      | jnum q => simp [visibilitySm, hsm, hme, hfp]
      | jarr xs => simp [visibilitySm, hsm, hme, hfp]
      | jobj fields => simp [visibilitySm, hsm, hme, hfp]
  · have hs : visSearch "1 1/2SM".data = some (1, some (1, 2)) := by decide
    norm_num [parseVisFromRawSm, hs]
    exact fun h => absurd h (by decide)
  · have hs : visSearch "P6SM".data = some (6, none) := by decide
    norm_num [parseVisFromRawSm, hs]
    exact fun h => absurd h (by decide)
  · have hs : visSearch "3/4SM".data = some (0, some (3, 4)) := by decide
    norm_num [parseVisFromRawSm, hs]
    exact fun h => absurd h (by decide)
  · have hs : visSearch "EGLL 121200Z 24010KT CAVOK 18/09 Q1022".data = none := by decide
    have hc : hasCAVOK "EGLL 121200Z 24010KT CAVOK 18/09 Q1022".data = true := by decide
    simp [parseVisFromRawSm, hs, hc]

/-- C4 witness: a structured SM value of 10 is returned unchanged. -/
theorem C4_visibility_chain_witness :
    visibilitySm [("visib", .jnum 10)] = some (some 10) :=
  C4_visibility_chain.1 [("visib", .jnum 10)] 10 rfl

theorem buildMap_mem : ∀ (records : List JVal) (m : List (String × JVal)),
    buildMap records = some m →
    ∀ (k : String) (v : JVal), (k, v) ∈ m → v ∈ records ∧ recordKeyOf v = some (some k)
  | [], m, h => by
    simp [buildMap] at h
    subst h
    intro k v hkv
    exact absurd hkv (List.not_mem_nil _)
  | r :: rest, m, h => by
    intro k v hkv
    cases hrk : recordKeyOf r with
    | none => simp [buildMap, hrk] at h
    | some o =>
      cases o with
      | none =>
        have hrest : buildMap rest = some m := by
          have hb : buildMap (r :: rest) = buildMap rest := by simp [buildMap, hrk]
          rw [← hb]; exact h
        have ih := buildMap_mem rest m hrest k v hkv
        exact ⟨List.mem_cons_of_mem _ ih.1, ih.2⟩
      | some key =>
        cases hbm : buildMap rest with
        | none => simp [buildMap, hrk, hbm] at h
        | some tl =>
          have hm : m = (key, r) :: tl := by
            have : buildMap (r :: rest) = some ((key, r) :: tl) := by
              simp [buildMap, hrk, hbm]
            rw [this] at h
            exact (Option.some_inj.mp h).symm
          subst hm
          rcases List.mem_cons.mp hkv with hhd | htl
          · have hk2a : k = key := congrArg Prod.fst hhd
            have hk2b : v = r := congrArg Prod.snd hhd
            subst hk2a; subst hk2b
            exact ⟨List.mem_cons_self _ _, hrk⟩
          · have ih := buildMap_mem rest tl hbm k v htl
            exact ⟨List.mem_cons_of_mem _ ih.1, ih.2⟩

/-- The stray record of the C7 counterexample: a METAR for a station that
was never configured. -/
def strayRecord : JVal := .jobj [("icaoId", .jstr "KXYZ")]

/-- C7: the aggregation does not restrict map keys to the configured
stations: with an empty stations list and one fetched record for KXYZ, the
snapshot's metar map holds the key KXYZ, which is not in its stations
list. -/
theorem C7_snapshot_keys_counterexample :
    buildSnapshot [] [strayRecord] [] =
      some { icaos := [], metar := [("KXYZ", strayRecord)], taf := [] }
    ∧ ("KXYZ", strayRecord) ∈ [("KXYZ", strayRecord)]
    ∧ "KXYZ" ∉ ([] : List String) :=
  ⟨rfl, List.mem_singleton.mpr rfl, List.not_mem_nil _⟩

/-- C7 (amended): every key of the built metar/taf maps is the upper-cased
icaoId (falling back to stationId) of some fetched record — records whose
both identifiers are falsy are dropped — so the claimed invariant (keys
are members of the stations list) holds exactly when every fetched
record's key is among the configured stations, which the code does not
enforce; and a configured station may lack an entry. -/
theorem C7_snapshot_keys_amended :
    (∀ (icaos : List String) (metars tafs : List JVal) (s : Snapshot),
      buildSnapshot icaos metars tafs = some s →
      s.icaos = icaos
      ∧ (∀ (k : String) (v : JVal), (k, v) ∈ s.metar →
          v ∈ metars ∧ recordKeyOf v = some (some k))
      ∧ (∀ (k : String) (v : JVal), (k, v) ∈ s.taf →
          v ∈ tafs ∧ recordKeyOf v = some (some k))
      ∧ ((∀ r ∈ metars, ∀ k : String, recordKeyOf r = some (some k) → k ∈ icaos) →
         (∀ r ∈ tafs, ∀ k : String, recordKeyOf r = some (some k) → k ∈ icaos) →
         ∀ (k : String) (v : JVal), ((k, v) ∈ s.metar ∨ (k, v) ∈ s.taf) → k ∈ icaos))
    ∧ buildSnapshot ["KCLT"] [] [] = some { icaos := ["KCLT"], metar := [], taf := [] } := by
  constructor
  · intro icaos metars tafs s hbuild
    cases hbm : buildMap metars with
    | none => simp [buildSnapshot, hbm] at hbuild
    | some mm =>
      cases hbt : buildMap tafs with
      | none => simp [buildSnapshot, hbm, hbt] at hbuild
      | some tm =>
        have hs : s = ⟨icaos, mm, tm⟩ := by
          have : buildSnapshot icaos metars tafs = some ⟨icaos, mm, tm⟩ := by
            simp [buildSnapshot, hbm, hbt]
          rw [this] at hbuild
          exact (Option.some_inj.mp hbuild).symm
        subst hs
        refine ⟨rfl, ?_, ?_, ?_⟩
        · exact buildMap_mem metars mm hbm
        · exact buildMap_mem tafs tm hbt
        · intro hmet htaf k v hkv
          rcases hkv with hkv | hkv
          · have h1 := buildMap_mem metars mm hbm k v hkv
            exact hmet v h1.1 k h1.2
          · have h1 := buildMap_mem tafs tm hbt k v hkv
            exact htaf v h1.1 k h1.2
  · rfl

/-- C7 witness: instantiating the amended theorem at the counterexample
input shows KXYZ is a key produced from the stray record itself. -/
theorem C7_snapshot_keys_amended_witness :
    ({ icaos := [], metar := [("KXYZ", strayRecord)], taf := [] } : Snapshot).icaos = []
    ∧ (∀ (k : String) (v : JVal),
        (k, v) ∈ ({ icaos := [], metar := [("KXYZ", strayRecord)], taf := [] } : Snapshot).metar →
        v ∈ [strayRecord] ∧ recordKeyOf v = some (some k)) :=
  ⟨(C7_snapshot_keys_amended.1 [] [strayRecord] []
      { icaos := [], metar := [("KXYZ", strayRecord)], taf := [] } rfl).1,
   (C7_snapshot_keys_amended.1 [] [strayRecord] []
      { icaos := [], metar := [("KXYZ", strayRecord)], taf := [] } rfl).2.1⟩

theorem wrapperKeys_hit (fields : List (String × JVal)) (k : String)
    (rest : List String) (xs : List JVal)
    (h : rlookup fields k = some (.jarr xs)) :
    wrapperKeys fields (k :: rest) = xs := by
  simp [wrapperKeys, h]

theorem wrapperKeys_skip (fields : List (String × JVal)) (k : String)
    (rest : List String)
    (h : ∀ ys : List JVal, rlookup fields k ≠ some (.jarr ys)) :
    wrapperKeys fields (k :: rest) = wrapperKeys fields rest := by
  cases hv : rlookup fields k with
  | none => simp [wrapperKeys, hv]
  | some v =>
    cases v with
    | jarr ys => exact absurd hv (h ys)
    | jnull => simp [wrapperKeys, hv]
    | jbool b => simp [wrapperKeys, hv]
    | jnum q => simp [wrapperKeys, hv]
    | jstr s => simp [wrapperKeys, hv]
    | jobj f2 => simp [wrapperKeys, hv]

/-- C8: the weather fetch yields zero records on a 204 status; on a 200
status a bare list is returned as is, a dict is unwrapped at the first of
the keys data, results, endpoint-name holding a list (so a wrapped object
and the bare list normalize identically), and every other shape gives the
empty list without an error. -/
theorem C8_response_normalization :
    (∀ (ep body : String) (p : JVal), fetchResult ep 204 body p = .ok [])
    ∧ (∀ (ep body : String) (xs : List JVal),
        fetchResult ep 200 body (.jarr xs) = .ok xs)
    ∧ (∀ (ep body : String) (fields : List (String × JVal)) (xs : List JVal),
        rlookup fields "data" = some (.jarr xs) →
        fetchResult ep 200 body (.jobj fields) = .ok xs)
    ∧ (∀ (ep body : String) (l : List JVal),
        fetchResult ep 200 body (.jobj [("data", .jarr l)])
          = fetchResult ep 200 body (.jarr l))
    ∧ (∀ (ep body : String) (fields : List (String × JVal)) (xs : List JVal),
        (∀ ys : List JVal, rlookup fields "data" ≠ some (.jarr ys)) →
        rlookup fields "results" = some (.jarr xs) →
        fetchResult ep 200 body (.jobj fields) = .ok xs)
    ∧ (∀ (ep body : String) (fields : List (String × JVal)) (xs : List JVal),
        (∀ ys : List JVal, rlookup fields "data" ≠ some (.jarr ys)) →
        (∀ ys : List JVal, rlookup fields "results" ≠ some (.jarr ys)) →
        rlookup fields ep = some (.jarr xs) →
        fetchResult ep 200 body (.jobj fields) = .ok xs)
    ∧ (∀ (ep body : String) (fields : List (String × JVal)),
        (∀ k : String, k ∈ ["data", "results", ep] →
          ∀ ys : List JVal, rlookup fields k ≠ some (.jarr ys)) →
        fetchResult ep 200 body (.jobj fields) = .ok [])
    ∧ (∀ (ep body : String) (p : JVal),
        ∃ l : List JVal, fetchResult ep 200 body p = .ok l)
    ∧ (∀ (ep body s : String), fetchResult ep 200 body (.jstr s) = .ok [])
    ∧ (∀ (ep body : String), fetchResult ep 200 body .jnull = .ok []) := by
  refine ⟨?_, ?_, ?_, ?_, ?_, ?_, ?_, ?_, ?_, ?_⟩
  · intro ep body p
    simp [fetchResult]
  · intro ep body xs
    simp [fetchResult, normalizePayload]
  · intro ep body fields xs h
    simp [fetchResult, normalizePayload, wrapperKeys_hit fields "data" ["results", ep] xs h]
  · intro ep body l
    simp [fetchResult, normalizePayload, wrapperKeys, rlookup]
  · intro ep body fields xs hdata hres
    simp [fetchResult, normalizePayload,
      wrapperKeys_skip fields "data" ["results", ep] hdata,
      wrapperKeys_hit fields "results" [ep] xs hres]
  · intro ep body fields xs hdata hres hep
    simp [fetchResult, normalizePayload,
      wrapperKeys_skip fields "data" ["results", ep] hdata,
      wrapperKeys_skip fields "results" [ep] hres,
      wrapperKeys_hit fields ep [] xs hep]
  · intro ep body fields h
    have hdata := h "data" (by simp)
    have hres := h "results" (by simp)
    have hep := h ep (by simp)
    simp [fetchResult, normalizePayload,
      wrapperKeys_skip fields "data" ["results", ep] hdata,
      wrapperKeys_skip fields "results" [ep] hres,
      wrapperKeys_skip fields ep [] hep, wrapperKeys]
  · intro ep body p
    exact ⟨normalizePayload ep p, by simp [fetchResult]⟩
  · intro ep body s
    simp [fetchResult, normalizePayload]
  · intro ep body
    simp [fetchResult, normalizePayload]

/-- C8 witness: a wrapped payload and the bare list both normalize to the
same one-record list. -/
theorem C8_response_normalization_witness :
    fetchResult "metar" 200 "" (.jobj [("data", .jarr [.jobj [("icaoId", .jstr "KCLT")]])])
      = .ok [.jobj [("icaoId", .jstr "KCLT")]] :=
  C8_response_normalization.2.2.1 "metar" "" [("data", .jarr [.jobj [("icaoId", .jstr "KCLT")]])]
    [.jobj [("icaoId", .jstr "KCLT")]] rfl

/-- Whether one wrapper key of the NOTAM payload holds a list. -/
def notamKeyHolds (fields : List (String × JVal)) (k : String) : Bool :=
  match rlookup fields k with
  | some (.jarr _) => true
  | _ => false

/-- Recognized NOTAM payload shapes, following the spec: a bare list, or an
object wrapping a list under notams/items/data/results. -/
def notamRecognized : JVal → Bool
  | .jarr _ => true
  | .jobj fields => notamKeys.any (notamKeyHolds fields)
  | _ => false

theorem notamWrapperKeys_err : ∀ (ks : List String) (fields : List (String × JVal)),
    ks.any (notamKeyHolds fields) = false →
    notamWrapperKeys fields ks = .error notamShapeErr
  | [], _, _ => rfl
  | k :: rest, fields, h => by
    have hsplit := h
    simp only [List.any_cons, Bool.or_eq_false_iff] at hsplit
    have ih := notamWrapperKeys_err rest fields hsplit.2
    cases hv : rlookup fields k with
    | none => rw [notamWrapperKeys]; rw [hv]; exact ih
    | some v =>
      cases v with
      | jarr ys =>
        have : notamKeyHolds fields k = true := by simp [notamKeyHolds, hv]
        rw [this] at hsplit
        exact absurd hsplit.1 (by simp)
      | jnull => rw [notamWrapperKeys]; rw [hv]; exact ih
      | jbool b => rw [notamWrapperKeys]; rw [hv]; exact ih
      | jnum q => rw [notamWrapperKeys]; rw [hv]; exact ih
      | jstr s => rw [notamWrapperKeys]; rw [hv]; exact ih
      | jobj f2 => rw [notamWrapperKeys]; rw [hv]; exact ih

theorem notamWrapperKeys_ok : ∀ (ks : List String) (fields : List (String × JVal)),
    ks.any (notamKeyHolds fields) = true →
    ∃ l : List JVal, notamWrapperKeys fields ks = .ok l
  | [], _, h => by simp at h
  | k :: rest, fields, h => by
    cases hv : rlookup fields k with
    | some v =>
      cases v with
      | jarr ys => exact ⟨ys.filter isObj, by rw [notamWrapperKeys]; rw [hv]⟩
      | jnull =>
        have h2 : rest.any (notamKeyHolds fields) = true := by
          simp only [List.any_cons, notamKeyHolds, hv] at h; exact h
        obtain ⟨l, hl⟩ := notamWrapperKeys_ok rest fields h2
        exact ⟨l, by rw [notamWrapperKeys]; rw [hv]; exact hl⟩
      | jbool b =>
        have h2 : rest.any (notamKeyHolds fields) = true := by
          simp only [List.any_cons, notamKeyHolds, hv] at h; exact h
        obtain ⟨l, hl⟩ := notamWrapperKeys_ok rest fields h2
        exact ⟨l, by rw [notamWrapperKeys]; rw [hv]; exact hl⟩
      | jnum q =>
        have h2 : rest.any (notamKeyHolds fields) = true := by
          simp only [List.any_cons, notamKeyHolds, hv] at h; exact h
        obtain ⟨l, hl⟩ := notamWrapperKeys_ok rest fields h2
        exact ⟨l, by rw [notamWrapperKeys]; rw [hv]; exact hl⟩
      | jstr s =>
        have h2 : rest.any (notamKeyHolds fields) = true := by
          simp only [List.any_cons, notamKeyHolds, hv] at h; exact h
        obtain ⟨l, hl⟩ := notamWrapperKeys_ok rest fields h2
        exact ⟨l, by rw [notamWrapperKeys]; rw [hv]; exact hl⟩
      | jobj f2 =>
        have h2 : rest.any (notamKeyHolds fields) = true := by
          simp only [List.any_cons, notamKeyHolds, hv] at h; exact h
        obtain ⟨l, hl⟩ := notamWrapperKeys_ok rest fields h2
        exact ⟨l, by rw [notamWrapperKeys]; rw [hv]; exact hl⟩
    | none =>
      have h2 : rest.any (notamKeyHolds fields) = true := by
        simp only [List.any_cons, notamKeyHolds, hv] at h; exact h
      obtain ⟨l, hl⟩ := notamWrapperKeys_ok rest fields h2
      exact ⟨l, by rw [notamWrapperKeys]; rw [hv]; exact hl⟩

/-- C9: the single-station NOTAM fetch raises a message naming the station
and the endpoint on a timeout and on a status of 400 or more; with a
successful status it extracts a bare list or a list wrapped under
notams/items/data/results, and raises (never returning an empty list) on
every unrecognized payload shape. -/
theorem C9_notam_failures :
    (∀ icao0 base : String,
      (notamIcao icao0).length = 4 →
      fetchNotamsForIcao icao0 base .timeout
        = .error ("NOTAM request timed out for " ++ notamIcao icao0
            ++ " (base_url=" ++ base ++ ")")
      ∧ (∃ x y : String,
          "NOTAM request timed out for " ++ notamIcao icao0 ++ " (base_url=" ++ base ++ ")"
            = x ++ notamIcao icao0 ++ y)
      ∧ (∃ x y : String,
          "NOTAM request timed out for " ++ notamIcao icao0 ++ " (base_url=" ++ base ++ ")"
            = x ++ base ++ y))
    ∧ (∀ (icao0 base : String) (status : ℕ) (payload : JVal),
        (notamIcao icao0).length = 4 →
        400 ≤ status →
        fetchNotamsForIcao icao0 base (.response status payload)
          = .error ("NOTAM request failed for " ++ notamIcao icao0 ++ ": HTTP "
              ++ toString status ++ " (base_url=" ++ base ++ ")")
        ∧ (∃ x y : String,
            "NOTAM request failed for " ++ notamIcao icao0 ++ ": HTTP "
              ++ toString status ++ " (base_url=" ++ base ++ ")"
              = x ++ notamIcao icao0 ++ y)
        ∧ (∃ x y : String,
            "NOTAM request failed for " ++ notamIcao icao0 ++ ": HTTP "
              ++ toString status ++ " (base_url=" ++ base ++ ")"
              = x ++ base ++ y))
    ∧ (∀ (icao0 base : String) (status : ℕ) (payload : JVal),
        (notamIcao icao0).length = 4 →
        status < 400 →
        fetchNotamsForIcao icao0 base (.response status payload) = extractList payload)
    ∧ (∀ xs : List JVal, extractList (.jarr xs) = .ok (xs.filter isObj))
    ∧ (∀ (fields : List (String × JVal)) (xs : List JVal),
        rlookup fields "notams" = some (.jarr xs) →
        extractList (.jobj fields) = .ok (xs.filter isObj))
    ∧ (∀ p : JVal, notamRecognized p = false → extractList p = .error notamShapeErr)
    ∧ (∀ p : JVal, notamRecognized p = true → ∃ l : List JVal, extractList p = .ok l) := by
  refine ⟨?_, ?_, ?_, ?_, ?_, ?_, ?_⟩
  · intro icao0 base hlen
    refine ⟨by simp [fetchNotamsForIcao, hlen], ?_, ?_⟩
    · refine ⟨"NOTAM request timed out for ", " (base_url=" ++ base ++ ")", ?_⟩
      simp [String.append_assoc]
    · refine ⟨"NOTAM request timed out for " ++ notamIcao icao0 ++ " (base_url=", ")", ?_⟩
      simp [String.append_assoc]
  · intro icao0 base status payload hlen hstatus
    refine ⟨by simp [fetchNotamsForIcao, hlen, hstatus], ?_, ?_⟩
    · refine ⟨"NOTAM request failed for ",
        ": HTTP " ++ toString status ++ " (base_url=" ++ base ++ ")", ?_⟩
      simp [String.append_assoc]
    · refine ⟨"NOTAM request failed for " ++ notamIcao icao0 ++ ": HTTP "
        ++ toString status ++ " (base_url=", ")", ?_⟩
      simp [String.append_assoc]
  · intro icao0 base status payload hlen hstatus
    have hns : ¬ (400 ≤ status) := by omega
    simp [fetchNotamsForIcao, hlen, hns]
  · intro xs
    rfl
  · intro fields xs h
    simp [extractList, notamKeys, notamWrapperKeys, h]
  · intro p hp
    cases p with
    | jarr xs => simp [notamRecognized] at hp
    | jobj fields =>
      have h : notamKeys.any (notamKeyHolds fields) = false := by
        simpa [notamRecognized] using hp
      exact notamWrapperKeys_err notamKeys fields h
    | jnull => rfl
    | jbool b => rfl
    | jnum q => rfl
    | jstr s => rfl
  · intro p hp
    cases p with
    | jarr xs => exact ⟨xs.filter isObj, rfl⟩
    | jobj fields =>
      have h : notamKeys.any (notamKeyHolds fields) = true := by
        simpa [notamRecognized] using hp
      exact notamWrapperKeys_ok notamKeys fields h
    | jnull => simp [notamRecognized] at hp
    | jbool b => simp [notamRecognized] at hp
    | jnum q => simp [notamRecognized] at hp
    | jstr s => simp [notamRecognized] at hp

/-- C9 witness: the timeout failure for station kclt (normalized KCLT)
against a concrete endpoint names both in its message. -/
theorem C9_notam_failures_witness :
    fetchNotamsForIcao "kclt " "https://api.example/notams" .timeout
      = .error ("NOTAM request timed out for " ++ notamIcao "kclt "
          ++ " (base_url=" ++ "https://api.example/notams" ++ ")") :=
  (C9_notam_failures.1 "kclt " "https://api.example/notams" (by decide)).1

theorem parsePyFloat_eq_finite (s : String) (q : ℚ)
    (h : pyFloatOfString s = some (.finite q)) : parsePyFloat s = some q := by
  simp [parsePyFloat, h]

/-- C10: the claim that `_to_int` never raises is false of the program:
float("1e400") is the float infinity (no error), and int() of an infinity
raises OverflowError, which the guard `except (TypeError, ValueError)`
does not catch — so `_to_int("1e400")` and `_to_int("inf")` raise an
uncaught exception instead of returning absent. The rest of the claim
holds: `_to_float` never raises here (it returns the infinity), int of
NaN raises ValueError which IS caught, "12.0" is tolerated and truncated
to 12, and None/non-numeric/unparsable inputs give absent. -/
theorem C10_to_int_overflow_eval :
    pyFloatOfString "1e400" = some (.infinite false)
    ∧ toFloatFull (.jstr "1e400") = some (.infinite false)
    ∧ toInt (.jstr "1e400") = none
    ∧ toInt (.jstr "inf") = none
    ∧ toInt (.jstr "nan") = some none
    ∧ toInt (.jstr "12.0") = some (some 12)
    ∧ toInt (.jstr "abc") = some none
    ∧ toInt .jnull = some none
    ∧ (∀ q : ℚ, toInt (.jnum q) = some (some (pyTrunc q)))
    ∧ (∀ xs : List JVal, toInt (.jarr xs) = some none)
    ∧ (∀ fields : List (String × JVal), toInt (.jobj fields) = some none)
    ∧ toInt (.jnum (-7 / 2)) = some (some (-3)) := by
  have ht : pyFloatTok "1e400".data = some (false, .num ['1'] [] 400) := by decide
  have hd1 : digitsToNat ['1'] = 1 := by decide
  have htn : Int.toNat 400 = 400 := rfl
  have hover : DBL_OVERFLOW ≤ mantissa ['1'] [] * epow (400 : ℤ) := by
    norm_num [DBL_OVERFLOW, mantissa, hd1, epow, htn]
  have h1 : pyFloatOfString "1e400" = some (.infinite false) := by
    simp only [pyFloatOfString, ht]
    rw [if_pos hover]
  refine ⟨h1, ?_, ?_, rfl, rfl, ?_, rfl, rfl, fun q => rfl, fun xs => rfl,
    fun fields => rfl, ?_⟩
  · simp only [toFloatFull, h1]
  · simp only [toInt, h1]
  · have ht2 : pyFloatTok "12.0".data = some (false, .num ['1', '2'] ['0'] 0) := by decide
    have hd2 : digitsToNat ['1', '2', '0'] = 120 := by decide
    have hfin : ¬ (DBL_OVERFLOW ≤ mantissa ['1', '2'] ['0'] * epow (0 : ℤ)) := by
      norm_num [DBL_OVERFLOW, mantissa, hd2, epow]
    have h2 : pyFloatOfString "12.0"
        = some (.finite (mantissa ['1', '2'] ['0'] * epow (0 : ℤ))) := by
      simp only [pyFloatOfString, ht2]
      rw [if_neg hfin]
      simp
    simp only [toInt, h2]
    norm_num [mantissa, hd2, epow, pyTrunc]
  · norm_num [toInt, pyTrunc, Int.ceil_neg]

end AeroWeather
